import Mathlib

set_option autoImplicit false

/-!
Shallow embedding of the wardrowbe preference-learning and recommendation
subsystem (`app/services/learning_service.py` and
`app/services/recommendation_service.py`), together with theorems checking the
natural-language specification against it.

Modelling conventions:
* Python floats are modelled as exact rationals (`ℚ`); `round(x, n)` is
  modelled by `pyRound`, round-half-to-even at `n` decimal digits, which is
  Python's rounding mode.
* Database rows become Lean structures; nullable columns become `Option`.
* UUIDs are modelled as natural numbers (only equality and ordering on them
  are used by the code).
* Dates are modelled as integers (only presence/absence is used by the code
  under study).
-/

namespace Wardrowbe

/-! ## Data model (app/models) -/

/-- Outfit lifecycle states, from `app/models/outfit.py` `OutfitStatus`. -/
inductive OutfitStatus where
  | pending
  | sent
  | viewed
  | accepted
  | rejected
  | expired
deriving DecidableEq, Repr

/-- Item lifecycle states, from `app/models/item.py` `ItemStatus`. -/
inductive ItemStatus where
  | processing
  | ready
  | error
  | archived
deriving DecidableEq, Repr

/-- Feedback row, from `app/models/outfit.py` `UserFeedback`.  The nullable
`wore_instead_items` JSONB column is modelled as a plain list: the code only
ever tests its truthiness, which identifies `NULL` with `[]`. -/
structure UserFeedback where
  accepted : Option Bool
  rating : Option ℤ
  comfort_rating : Option ℤ
  style_rating : Option ℤ
  worn_at : Option ℤ
  worn_with_modifications : Bool
  actually_worn : Option Bool
  wore_instead_items : List ℕ
deriving DecidableEq, Repr

/-- Clothing item row, restricted to the fields the candidate-filtering and
learning code reads, from `app/models/item.py` `ClothingItem`. -/
structure ClothingItem where
  id : ℕ
  user_id : ℕ
  status : ItemStatus
  is_archived : Bool
  needs_wash : Bool
  primary_color : Option String
  style : List String
deriving DecidableEq, Repr

/-- Outfit row with its eagerly loaded items and feedback, from
`app/models/outfit.py` `Outfit`.  `weather_temperature` models
`outfit.weather_data.get("temperature")`. -/
structure Outfit where
  user_id : ℕ
  status : OutfitStatus
  occasion : String
  weather_temperature : Option ℚ
  items : List ClothingItem
  feedback : Option UserFeedback
deriving DecidableEq, Repr

/-- Item pair score row, from `app/models/learning.py` `ItemPairScore`.
The `occasion_performance` / `weather_performance` JSONB dicts become
insertion-ordered association lists mapping a key to `(count, positive)`. -/
structure ItemPairScore where
  item1_id : ℕ
  item2_id : ℕ
  compatibility_score : ℚ
  times_paired : ℕ
  times_accepted : ℕ
  times_rejected : ℕ
  total_rating_sum : ℤ
  rating_count : ℕ
  occasion_performance : List (String × ℕ × ℕ)
  weather_performance : List (String × ℕ × ℕ)
deriving DecidableEq, Repr

/-- Column defaults of a freshly created `ItemPairScore` row. -/
def defaultPairScore (id1 id2 : ℕ) : ItemPairScore :=
  { item1_id := id1
    item2_id := id2
    compatibility_score := 0
    times_paired := 0
    times_accepted := 0
    times_rejected := 0
    total_rating_sum := 0
    rating_count := 0
    occasion_performance := []
    weather_performance := [] }

/-! ## Python numeric helpers -/

/-- Round to the nearest integer, ties to even: the rounding mode of Python's
built-in `round`. -/
def roundHalfEven (x : ℚ) : ℤ :=
  let n := ⌊x⌋
  let f := x - (n : ℚ)
  if f < 1/2 then n
  else if 1/2 < f then n + 1
  else if n % 2 = 0 then n else n + 1

/-- Python `round(x, ndigits)` on exact rationals. -/
def pyRound (x : ℚ) (ndigits : ℕ) : ℚ :=
  (roundHalfEven (x * 10 ^ ndigits) : ℚ) / 10 ^ ndigits

/-- Python's built-in `max` on two rationals. -/
def pyMax (a b : ℚ) : ℚ := if a ≤ b then b else a

/-- Python's built-in `min` on two rationals. -/
def pyMin (a b : ℚ) : ℚ := if b ≤ a then b else a

theorem pyMax_eq_max (a b : ℚ) : pyMax a b = max a b := by
  unfold pyMax
  rw [max_def]

theorem pyMin_eq_min (a b : ℚ) : pyMin a b = min a b := by
  unfold pyMin
  rw [min_comm, min_def]

/-! ## Signal computation (`LearningService._get_outfit_signal`) -/

/-- Embedding of `LearningService._get_outfit_signal` (learning_service.py
lines 601-627): sequential accumulation of feedback terms followed by a clamp
to [-1, 1]. -/
def getOutfitSignal (status : OutfitStatus) (feedback : Option UserFeedback) : ℚ :=
  let s1 : ℚ :=
    match status with
    | OutfitStatus.accepted => 0 + 3/10
    | OutfitStatus.rejected => 0 - 1/2
    | _ => 0
  let s2 : ℚ :=
    match feedback with
    | none => s1
    | some fb =>
      let a : ℚ :=
        match fb.rating with
        | some r => s1 + ((r : ℚ) - 3) / 2 * (4/10)
        | none => s1
      let b : ℚ :=
        match fb.worn_at with
        | some _ => if fb.worn_with_modifications then a + 3/10 - 1/10 else a + 3/10
        | none => a
      match fb.actually_worn with
      | some false =>
        if fb.wore_instead_items ≠ [] then b - 4/10 - 2/10 else b - 4/10
      | _ => b
  pyMax (-1) (pyMin 1 s2)

/-- Specification-side formula for the signal: the plain sum of the
contribution terms listed in spec section 4.1, before clamping. -/
def outfitSignalTerms (status : OutfitStatus) (feedback : Option UserFeedback) : ℚ :=
  (match status with
   | OutfitStatus.accepted => (3 : ℚ)/10
   | OutfitStatus.rejected => -(1/2)
   | _ => 0)
    + (match feedback with
       | none => 0
       | some fb =>
         (match fb.rating with
          | some r => ((r : ℚ) - 3) / 2 * (4/10)
          | none => 0)
           + (match fb.worn_at with
              | some _ => 3/10 + (if fb.worn_with_modifications then -(1/10) else 0)
              | none => 0)
           + (match fb.actually_worn with
              | some false => -(4/10) + (if fb.wore_instead_items ≠ [] then -(2/10) else 0)
              | _ => 0))

/-! ## Pair compatibility (`LearningService._compute_pair_compatibility`) -/

/-- Minimum co-occurrence count before a pair is scored
(`LearningService.MIN_PAIRS_FOR_SCORING`). -/
def MIN_PAIRS_FOR_SCORING : ℕ := 2

/-- Embedding of `LearningService._compute_pair_compatibility`
(learning_service.py lines 383-405).  The Python code stores
`Decimal(str(round(score, 4)))`; the rounding is modelled by `pyRound`. -/
def computePairCompatibility (pair : ItemPairScore) : ℚ :=
  if pair.times_paired < MIN_PAIRS_FOR_SCORING then 0
  else
    let total_responses := pair.times_accepted + pair.times_rejected
    let acceptance_rate : ℚ :=
      if 0 < total_responses then (pair.times_accepted : ℚ) / (total_responses : ℚ)
      else 1/2
    let rating_score : ℚ :=
      if 0 < pair.rating_count then
        ((pair.total_rating_sum : ℚ) / (pair.rating_count : ℚ) - 1) / 4
      else 1/2
    pyRound ((acceptance_rate * (6/10) + rating_score * (4/10)) * 2 - 1) 4

/-- Specification-side compatibility formula, written from the spec's words:
`((acceptance_rate * 0.6 + normalized_avg_rating * 0.4) * 2) - 1` with the
stated defaults, and no rounding. -/
def pairCompatibilityFormula (pair : ItemPairScore) : ℚ :=
  let acceptance_rate : ℚ :=
    if pair.times_accepted + pair.times_rejected = 0 then 1/2
    else (pair.times_accepted : ℚ) / ((pair.times_accepted : ℚ) + (pair.times_rejected : ℚ))
  let normalized_avg_rating : ℚ :=
    if pair.rating_count = 0 then 1/2
    else ((pair.total_rating_sum : ℚ) / (pair.rating_count : ℚ) - 1) / 4
  (acceptance_rate * (6/10) + normalized_avg_rating * (4/10)) * 2 - 1

/-! ## Pair-score aggregation (`LearningService._update_item_pair_scores`) -/

/-- Embedding of `LearningService._get_temp_bucket` (learning_service.py
lines 372-381). -/
def getTempBucket (temp : ℚ) : String :=
  if temp < 5 then "cold"
  else if temp < 15 then "cool"
  else if temp < 25 then "mild"
  else "hot"

/-- Embedding of the feedback-signal block at the top of
`LearningService._update_item_pair_scores` (lines 221-239): the sequentially
computed `(signal_strength, is_positive)` pair. -/
def pairFeedbackSignal (fb : UserFeedback) : ℚ × Bool :=
  let sp0 : ℚ × Bool := (0, false)
  let sp1 : ℚ × Bool :=
    match fb.accepted with
    | some true => (3/10, true)
    | some false => (-(3/10), sp0.2)
    | none => sp0
  let sp2 : ℚ × Bool :=
    match fb.rating with
    | some r =>
      let s := sp1.1 + ((r : ℚ) - 3) / 2 * (3/10)
      (s, decide (0 < s))
    | none => sp1
  match fb.worn_at with
  | some _ => (sp2.1 + 2/10, true)
  | none => sp2

/-- The `is_positive` flag used by `_update_item_pair_scores`. -/
def pairIsPositive (fb : UserFeedback) : Bool := (pairFeedbackSignal fb).2

/-- Embedding of the occasion/weather counter update in
`_update_item_pair_scores` (lines 277-298): insert the key with
`(count, positive) = (0, 0)` if missing, then increment `count`, and
increment `positive` only when the feedback is positive. -/
def bumpPerf (perf : List (String × ℕ × ℕ)) (key : String) (isPos : Bool) :
    List (String × ℕ × ℕ) :=
  match perf with
  | [] => [(key, 1, if isPos then 1 else 0)]
  | (k, c, p) :: rest =>
    if k = key then (k, c + 1, if isPos then p + 1 else p) :: rest
    else (k, c, p) :: bumpPerf rest key isPos

/-- Read a performance-counter entry the way the Python dict does, with the
`(0, 0)` default used on first insertion. -/
def perfGet (perf : List (String × ℕ × ℕ)) (key : String) : ℕ × ℕ :=
  (perf.lookup key).getD (0, 0)

/-- Embedding of the per-pair body of `_update_item_pair_scores`
(lines 265-301): counter increments, performance-map updates and the final
compatibility recomputation, for one pair-score row of the outfit's user. -/
def updatePairCounters (fb : UserFeedback) (occ : String) (wtemp : Option ℚ)
    (ps : ItemPairScore) : ItemPairScore :=
  let isPos := pairIsPositive fb
  let ps1 := { ps with times_paired := ps.times_paired + 1 }
  let ps2 :=
    match fb.accepted with
    | some true => { ps1 with times_accepted := ps1.times_accepted + 1 }
    | some false => { ps1 with times_rejected := ps1.times_rejected + 1 }
    | none => ps1
  let ps3 :=
    match fb.rating with
    | some r =>
      { ps2 with
        total_rating_sum := ps2.total_rating_sum + r
        rating_count := ps2.rating_count + 1 }
    | none => ps2
  let ps4 := { ps3 with occasion_performance := bumpPerf ps3.occasion_performance occ isPos }
  let ps5 :=
    match wtemp with
    | some t =>
      { ps4 with weather_performance := bumpPerf ps4.weather_performance (getTempBucket t) isPos }
    | none => ps4
  { ps5 with compatibility_score := computePairCompatibility ps5 }

/-! ## Wore-instead processing (`LearningService._process_wore_instead`) -/

/-- A user's pair-score table, modelled as a total map from the canonical
item-id pair to the row; keys never touched hold the freshly-created row
defaults, which models the get-or-create access pattern. -/
def PairStore : Type := ℕ × ℕ → ItemPairScore

/-- Canonical pair key (learning_service.py lines 243 and 339):
`(id1, id2) if id1 < id2 else (id2, id1)`. -/
def pairKey (a b : ℕ) : ℕ × ℕ := if a < b then (a, b) else (b, a)

/-- All 2-element combinations of a list, in `itertools.combinations` order. -/
def pairsOf : List ℕ → List (ℕ × ℕ)
  | [] => []
  | x :: xs => (xs.map fun y => (x, y)) ++ pairsOf xs

/-- Point update of a pair-score table. -/
def updateStore (m : PairStore) (k : ℕ × ℕ) (f : ItemPairScore → ItemPairScore) :
    PairStore :=
  fun k2 => if k2 = k then f (m k) else m k2

/-- Embedding of the per-pair body of `_process_wore_instead` (lines 361-370):
times_paired + 1, times_accepted + 1, a synthetic 5-star rating, then
compatibility recomputation on the updated counters. -/
def woreInsteadBump (p : ItemPairScore) : ItemPairScore :=
  let p1 := { p with times_paired := p.times_paired + 1 }
  let p2 := { p1 with times_accepted := p1.times_accepted + 1 }
  let p3 := { p2 with total_rating_sum := p2.total_rating_sum + 5 }
  let p4 := { p3 with rating_count := p3.rating_count + 1 }
  { p4 with compatibility_score := computePairCompatibility p4 }

/-- Embedding of `LearningService._process_wore_instead` (lines 303-370),
after the wore-instead item ids have been resolved to item rows: with fewer
than 2 resolved items nothing happens, otherwise every combination of two
items gets the strong positive update. -/
def processWoreInstead (woreItems : List ℕ) (m : PairStore) : PairStore :=
  if woreItems.length < 2 then m
  else (pairsOf woreItems).foldl
    (fun acc p => updateStore acc (pairKey p.1 p.2) woreInsteadBump) m

/-! ## Profile recomputation (`LearningService.recompute_learning_profile`) -/

/-- The signal of one outfit, as used by profile recomputation. -/
def outfitSignal (o : Outfit) : ℚ := getOutfitSignal o.status o.feedback

/-- Generic Python-dict update on an insertion-ordered association list:
insert `key` with the given default if missing, then apply `f` in place. -/
def updateAList {α : Type} (d : List (String × α)) (key : String) (dflt : α)
    (f : α → α) : List (String × α) :=
  match d with
  | [] => [(key, f dflt)]
  | (k, v) :: rest =>
    if k = key then (k, f v) :: rest
    else (k, v) :: updateAList rest key dflt f

/-- Append a signal to a dict of signal lists (`if k not in d: d[k] = []`
followed by `d[k].append(s)`). -/
def appendSignal (d : List (String × List ℚ)) (key : String) (s : ℚ) :
    List (String × List ℚ) :=
  updateAList d key [] (fun v => v ++ [s])

/-- Color contribution of one item (lines 472-476): the `primary_color`
truthiness test treats the empty string like NULL. -/
def colorStepItem (signal : ℚ) (acc : List (String × List ℚ)) (it : ClothingItem) :
    List (String × List ℚ) :=
  match it.primary_color with
  | some c => if c = "" then acc else appendSignal acc c signal
  | none => acc

/-- Color accumulation for one outfit (lines 469-476). -/
def colorStepOutfit (signal : ℚ) (items : List ClothingItem)
    (d : List (String × List ℚ)) : List (String × List ℚ) :=
  items.foldl (colorStepItem signal) d

/-- Style accumulation for one outfit (lines 478-482). -/
def styleStepOutfit (signal : ℚ) (items : List ClothingItem)
    (d : List (String × List ℚ)) : List (String × List ℚ) :=
  items.foldl (fun acc it =>
    it.style.foldl (fun acc2 st => appendSignal acc2 st signal) acc) d

/-- Per-occasion accumulator (lines 486-492). -/
structure OccAcc where
  colors : List (String × ℕ)
  count : ℕ
  positive : ℕ
deriving DecidableEq, Repr

/-- Occasion accumulation for one outfit (lines 484-504): bump count and
positive, then bump the per-color success counters. -/
def occasionStepOutfit (signal : ℚ) (occ : String) (items : List ClothingItem)
    (d : List (String × OccAcc)) : List (String × OccAcc) :=
  let d1 := updateAList d occ ⟨[], 0, 0⟩ fun oa =>
    { oa with
      count := oa.count + 1
      positive := if 0 < signal then oa.positive + 1 else oa.positive }
  items.foldl (fun acc it =>
    match it.primary_color with
    | some c =>
      if c = "" then acc
      else
        updateAList acc occ ⟨[], 0, 0⟩ fun oa =>
          { oa with
            colors := updateAList oa.colors c 0 fun n =>
              if 0 < signal then n + 1 else n }
    | none => acc) d1

/-- Per-temperature-bucket accumulator (line 512). -/
structure WeatherAcc where
  count : ℕ
  positive : ℕ
  layers : List ℕ
deriving DecidableEq, Repr

/-- Weather accumulation for one outfit (lines 506-516). -/
def weatherStepOutfit (signal : ℚ) (wtemp : Option ℚ) (numItems : ℕ)
    (d : List (String × WeatherAcc)) : List (String × WeatherAcc) :=
  match wtemp with
  | some t =>
    updateAList d (getTempBucket t) ⟨0, 0, []⟩ fun wa =>
      { count := wa.count + 1
        positive := if 0 < signal then wa.positive + 1 else wa.positive
        layers := wa.layers ++ [numItems] }
  | none => d

/-- All accumulators of the recomputation loop (lines 449-462). -/
structure ProfileAccum where
  color_scores : List (String × List ℚ)
  style_scores : List (String × List ℚ)
  occasion_patterns : List (String × OccAcc)
  weather_prefs : List (String × WeatherAcc)
  total_accepted : ℕ
  total_rejected : ℕ
  rating_sum : ℤ
  rating_count : ℕ
  comfort_sum : ℤ
  comfort_count : ℕ
  style_sum : ℤ
  style_count : ℕ

def initProfileAccum : ProfileAccum :=
  { color_scores := []
    style_scores := []
    occasion_patterns := []
    weather_prefs := []
    total_accepted := 0
    total_rejected := 0
    rating_sum := 0
    rating_count := 0
    comfort_sum := 0
    comfort_count := 0
    style_sum := 0
    style_count := 0 }

/-- One iteration of the `for outfit in outfits` loop (lines 464-533).  Each
accumulator is updated independently from the outfit and its own previous
value, exactly as the sequential dict mutations do. -/
def profileStep (acc : ProfileAccum) (o : Outfit) : ProfileAccum :=
  let signal := outfitSignal o
  { color_scores := colorStepOutfit signal o.items acc.color_scores
    style_scores := styleStepOutfit signal o.items acc.style_scores
    occasion_patterns := occasionStepOutfit signal o.occasion o.items acc.occasion_patterns
    weather_prefs := weatherStepOutfit signal o.weather_temperature o.items.length acc.weather_prefs
    total_accepted :=
      if o.status = OutfitStatus.accepted then acc.total_accepted + 1
      else acc.total_accepted
    total_rejected :=
      if o.status = OutfitStatus.accepted then acc.total_rejected
      else acc.total_rejected + 1
    rating_sum :=
      match o.feedback with
      | some fb =>
        match fb.rating with
        | some r => acc.rating_sum + r
        | none => acc.rating_sum
      | none => acc.rating_sum
    rating_count :=
      match o.feedback with
      | some fb =>
        match fb.rating with
        | some _ => acc.rating_count + 1
        | none => acc.rating_count
      | none => acc.rating_count
    comfort_sum :=
      match o.feedback with
      | some fb =>
        match fb.comfort_rating with
        | some r => acc.comfort_sum + r
        | none => acc.comfort_sum
      | none => acc.comfort_sum
    comfort_count :=
      match o.feedback with
      | some fb =>
        match fb.comfort_rating with
        | some _ => acc.comfort_count + 1
        | none => acc.comfort_count
      | none => acc.comfort_count
    style_sum :=
      match o.feedback with
      | some fb =>
        match fb.style_rating with
        | some r => acc.style_sum + r
        | none => acc.style_sum
      | none => acc.style_sum
    style_count :=
      match o.feedback with
      | some fb =>
        match fb.style_rating with
        | some _ => acc.style_count + 1
        | none => acc.style_count
      | none => acc.style_count }

/-- Final color/style score map (lines 537-545): mean signal rounded to 3
decimals, per key with at least one observation. -/
def finalizeScores (d : List (String × List ℚ)) : List (String × ℚ) :=
  (d.filter fun kv => 1 ≤ kv.2.length).map fun kv =>
    (kv.1, pyRound (kv.2.sum / (kv.2.length : ℚ)) 3)

/-- Simplified occasion pattern (lines 557-560). -/
structure OccPattern where
  preferred_colors : List String
  success_rate : ℚ
deriving DecidableEq, Repr

/-- Top-3 colors by success count, Python `sorted(..., reverse=True)[:3]`:
stable descending sort on the count. -/
def topColors (colors : List (String × ℕ)) : List String :=
  ((colors.mergeSort fun a b => b.2 ≤ a.2).take 3).map Prod.fst

/-- Final occasion patterns (lines 547-560). -/
def finalizeOccasions (d : List (String × OccAcc)) : List (String × OccPattern) :=
  (d.filter fun kv => 1 ≤ kv.2.count).map fun kv =>
    (kv.1,
     { preferred_colors := topColors kv.2.colors
       success_rate := pyRound ((kv.2.positive : ℚ) / (kv.2.count : ℚ)) 2 })

/-- Simplified weather preference (lines 567-570). -/
structure WeatherPref where
  preferred_layers : ℚ
  success_rate : ℚ
deriving DecidableEq, Repr

/-- Final weather preferences (lines 562-570). -/
def finalizeWeather (d : List (String × WeatherAcc)) : List (String × WeatherPref) :=
  (d.filter fun kv => 1 ≤ kv.2.count).map fun kv =>
    (kv.1,
     { preferred_layers :=
         pyRound ((kv.2.layers.map fun n => (n : ℚ)).sum / (kv.2.layers.length : ℚ)) 1
       success_rate := pyRound ((kv.2.positive : ℚ) / (kv.2.count : ℚ)) 2 })

/-- Learning-profile row, from `app/models/learning.py` `UserLearningProfile`,
restricted to the fields recomputation reads or writes (timestamps and
model_version are not modelled). -/
structure UserLearningProfile where
  learned_color_scores : List (String × ℚ)
  learned_style_scores : List (String × ℚ)
  learned_occasion_patterns : List (String × OccPattern)
  learned_weather_preferences : List (String × WeatherPref)
  overall_acceptance_rate : Option ℚ
  average_overall_rating : Option ℚ
  average_comfort_rating : Option ℚ
  average_style_rating : Option ℚ
  feedback_count : ℕ
  outfits_rated : ℕ
deriving DecidableEq, Repr

/-- Minimum responded outfits before recomputation does anything
(`LearningService.MIN_FEEDBACK_FOR_LEARNING`). -/
def MIN_FEEDBACK_FOR_LEARNING : ℕ := 1

/-- The SQL filter of recompute_learning_profile (lines 430-443): the user's
outfits whose status is accepted or rejected. -/
def respondedOutfits (allOutfits : List Outfit) : List Outfit :=
  allOutfits.filter fun o =>
    decide (o.status = OutfitStatus.accepted ∨ o.status = OutfitStatus.rejected)

/-- Embedding of `LearningService.recompute_learning_profile` (lines 416-599)
for one user: `allOutfits` is the user's outfit history; too little feedback
returns the profile unchanged, otherwise every written field is replaced by
the recomputed aggregate.  The `if acceptance_rate:`-style truthiness guards
of lines 586-589 map a zero average to `none`. -/
def recomputeLearningProfile (profile : UserLearningProfile)
    (allOutfits : List Outfit) : UserLearningProfile :=
  let outfits := respondedOutfits allOutfits
  if outfits.length < MIN_FEEDBACK_FOR_LEARNING then profile
  else
    let acc := outfits.foldl profileStep initProfileAccum
    let total_responded := acc.total_accepted + acc.total_rejected
    let acceptance_rate : Option ℚ :=
      if 0 < total_responded then some ((acc.total_accepted : ℚ) / (total_responded : ℚ))
      else none
    let avg_rating : Option ℚ :=
      if 0 < acc.rating_count then some ((acc.rating_sum : ℚ) / (acc.rating_count : ℚ))
      else none
    let avg_comfort : Option ℚ :=
      if 0 < acc.comfort_count then some ((acc.comfort_sum : ℚ) / (acc.comfort_count : ℚ))
      else none
    let avg_style : Option ℚ :=
      if 0 < acc.style_count then some ((acc.style_sum : ℚ) / (acc.style_count : ℚ))
      else none
    { profile with
      learned_color_scores := finalizeScores acc.color_scores
      learned_style_scores := finalizeScores acc.style_scores
      learned_occasion_patterns := finalizeOccasions acc.occasion_patterns
      learned_weather_preferences := finalizeWeather acc.weather_prefs
      overall_acceptance_rate :=
        match acceptance_rate with
        | some r => if r ≠ 0 then some (pyRound r 4) else none
        | none => none
      average_overall_rating :=
        match avg_rating with
        | some r => if r ≠ 0 then some (pyRound r 2) else none
        | none => none
      average_comfort_rating :=
        match avg_comfort with
        | some r => if r ≠ 0 then some (pyRound r 2) else none
        | none => none
      average_style_rating :=
        match avg_style with
        | some r => if r ≠ 0 then some (pyRound r 2) else none
        | none => none
      feedback_count := outfits.length
      outfits_rated := acc.rating_count }

/-- Specification-side color aggregate: a function of the responded-outfit
history only. -/
def colorScoresOf (outfits : List Outfit) : List (String × ℚ) :=
  finalizeScores (outfits.foldl
    (fun d o => colorStepOutfit (outfitSignal o) o.items d) [])

/-- Specification-side style aggregate. -/
def styleScoresOf (outfits : List Outfit) : List (String × ℚ) :=
  finalizeScores (outfits.foldl
    (fun d o => styleStepOutfit (outfitSignal o) o.items d) [])

/-- Specification-side occasion aggregate. -/
def occasionPatternsOf (outfits : List Outfit) : List (String × OccPattern) :=
  finalizeOccasions (outfits.foldl
    (fun d o => occasionStepOutfit (outfitSignal o) o.occasion o.items d) [])

/-- Specification-side weather aggregate. -/
def weatherPrefsOf (outfits : List Outfit) : List (String × WeatherPref) :=
  finalizeWeather (outfits.foldl
    (fun d o => weatherStepOutfit (outfitSignal o) o.weather_temperature o.items.length d) [])

/-! ## Candidate assembly (`RecommendationService`) -/

/-- Preference row, restricted to the fields `get_candidate_items` reads,
from `app/models/preference.py` `UserPreference`. -/
structure UserPreference where
  excluded_item_ids : List ℕ
  avoid_repeat_days : ℤ
deriving DecidableEq, Repr

/-- Embedding of `RecommendationService.get_candidate_items`
(recommendation_service.py lines 104-143).  `recentlyWorn` stands for the
item ids returned by the `_exclude_recently_worn` history query. -/
def getCandidateItems (userId : ℕ) (wardrobe : List ClothingItem)
    (prefs : Option UserPreference) (excludeItems : List ℕ)
    (recentlyWorn : List ℕ) : List ClothingItem :=
  let items := wardrobe.filter fun i =>
    decide (i.user_id = userId ∧ i.status = ItemStatus.ready ∧ i.is_archived = false)
  if items = [] then []
  else
    let items := items.filter fun i => !i.needs_wash
    let items :=
      if excludeItems ≠ [] then items.filter fun i => decide (i.id ∉ excludeItems)
      else items
    let items :=
      match prefs with
      | some p =>
        if p.excluded_item_ids ≠ [] then
          items.filter fun i => decide (i.id ∉ p.excluded_item_ids)
        else items
      | none => items
    match prefs with
    | some p =>
      if p.avoid_repeat_days ≠ 0 then
        if p.avoid_repeat_days ≤ 0 then items
        else items.filter fun i => decide (i.id ∉ recentlyWorn)
      else items
    | none => items

/-- Embedding of the force-include block of
`RecommendationService.generate_recommendation` (lines 576-596): ids from
`include_items` not already among the candidates are fetched (owned, ready,
non-archived) and appended. -/
def forceIncludeItems (userId : ℕ) (wardrobe : List ClothingItem)
    (candidates : List ClothingItem) (includeItems : List ℕ) : List ClothingItem :=
  if includeItems ≠ [] then
    let existing := candidates.map fun i => i.id
    let missing := includeItems.filter fun i => decide (i ∉ existing)
    if missing ≠ [] then
      candidates ++ wardrobe.filter fun i =>
        decide (i.id ∈ missing ∧ i.user_id = userId ∧ i.status = ItemStatus.ready ∧
          i.is_archived = false)
    else candidates
  else candidates

/-- The candidate list right before the wardrobe-size check of
`generate_recommendation`: filtered candidates plus force-includes. -/
def assembleCandidates (userId : ℕ) (wardrobe : List ClothingItem)
    (prefs : Option UserPreference) (excludeItems includeItems recentlyWorn : List ℕ) :
    List ClothingItem :=
  forceIncludeItems userId wardrobe
    (getCandidateItems userId wardrobe prefs excludeItems recentlyWorn) includeItems

/-! ## Model-response parsing (`RecommendationService._parse_ai_response`)

The Python code leans on `json.loads`, `re` and `str` helpers; these are
embedded below at the JSON-grammar level.  JSON number literals are modelled
as integers — the payloads this parser exists for are integer item numbers —
and string escapes cover the single-character escapes. -/

/-- JSON values as produced by `json.loads`. -/
inductive JValue where
  | jnull
  | jbool (b : Bool)
  | jnum (n : ℤ)
  | jstr (s : String)
  | jarr (xs : List JValue)
  | jobj (fields : List (String × JValue))

def braceOpen : Char := Char.ofNat 123

def braceClose : Char := Char.ofNat 125

def backtick : Char := Char.ofNat 96

/-- JSON insignificant whitespace. -/
def isJsonWs (c : Char) : Bool :=
  c = ' ' ∨ c = '\n' ∨ c = '\t' ∨ c = '\r'

def skipWs : List Char → List Char
  | [] => []
  | c :: cs => if isJsonWs c then skipWs cs else c :: cs

/-- Body of a JSON string after the opening quote, with single-character
escapes. -/
def parseStringBody : ℕ → List Char → Option (String × List Char)
  | 0, _ => none
  | _, [] => none
  | fuel + 1, c :: cs =>
    if c = '"' then some ("", cs)
    else if c = '\\' then
      match cs with
      | [] => none
      | e :: cs2 =>
        let ec : Char :=
          if e = 'n' then '\n'
          else if e = 't' then '\t'
          else if e = 'r' then '\r'
          else if e = 'b' then Char.ofNat 8
          else if e = 'f' then Char.ofNat 12
          else e
        match parseStringBody fuel cs2 with
        | some (s, rest) => some (⟨ec :: s.data⟩, rest)
        | none => none
    else
      match parseStringBody fuel cs with
      | some (s, rest) => some (⟨c :: s.data⟩, rest)
      | none => none

def takeDigits : List Char → List Char × List Char
  | [] => ([], [])
  | c :: cs =>
    if c.isDigit then
      let (ds, rest) := takeDigits cs
      (c :: ds, rest)
    else ([], c :: cs)

def digitsToNat (ds : List Char) : ℕ :=
  ds.foldl (fun acc c => acc * 10 + (c.toNat - 48)) 0

/-- JSON integer literal, with optional leading minus. -/
def parseNumber (cs : List Char) : Option (ℤ × List Char) :=
  let (neg, cs1) :=
    match cs with
    | '-' :: rest => (true, rest)
    | _ => (false, cs)
  let (ds, rest) := takeDigits cs1
  if ds = [] then none
  else
    let n : ℤ := (digitsToNat ds : ℤ)
    some (if neg then -n else n, rest)

mutual

/-- Recursive-descent JSON value parser; the fuel argument only bounds
recursion depth and is always supplied larger than the input length. -/
def parseValue : ℕ → List Char → Option (JValue × List Char)
  | 0, _ => none
  | fuel + 1, cs0 =>
    match skipWs cs0 with
    | [] => none
    | c :: rest =>
      if c = braceOpen then
        match parseObjFields fuel rest with
        | some (fs, rest2) => some (JValue.jobj fs, rest2)
        | none => none
      else if c = '[' then
        match parseArrayItems fuel rest with
        | some (xs, rest2) => some (JValue.jarr xs, rest2)
        | none => none
      else if c = '"' then
        match parseStringBody fuel rest with
        | some (s, rest2) => some (JValue.jstr s, rest2)
        | none => none
      else if c = 't' then
        match rest with
        | 'r' :: 'u' :: 'e' :: rest2 => some (JValue.jbool true, rest2)
        | _ => none
      else if c = 'f' then
        match rest with
        | 'a' :: 'l' :: 's' :: 'e' :: rest2 => some (JValue.jbool false, rest2)
        | _ => none
      else if c = 'n' then
        match rest with
        | 'u' :: 'l' :: 'l' :: rest2 => some (JValue.jnull, rest2)
        | _ => none
      else
        match parseNumber (c :: rest) with
        | some (n, rest2) => some (JValue.jnum n, rest2)
        | none => none

/-- Array elements after the opening bracket. -/
def parseArrayItems : ℕ → List Char → Option (List JValue × List Char)
  | 0, _ => none
  | fuel + 1, cs =>
    match skipWs cs with
    | ']' :: rest => some ([], rest)
    | cs2 =>
      match parseValue fuel cs2 with
      | none => none
      | some (v, rest) =>
        match skipWs rest with
        | ',' :: rest3 =>
          match parseArrayItems fuel rest3 with
          | some (vs, rest4) => some (v :: vs, rest4)
          | none => none
        | ']' :: rest3 => some ([v], rest3)
        | _ => none

/-- Object fields after the opening brace. -/
def parseObjFields : ℕ → List Char → Option (List (String × JValue) × List Char)
  | 0, _ => none
  | fuel + 1, cs =>
    match skipWs cs with
    | [] => none
    | c :: rest =>
      if c = braceClose then some ([], rest)
      else if c = '"' then
        match parseStringBody fuel rest with
        | none => none
        | some (k, rest2) =>
          match skipWs rest2 with
          | ':' :: rest3 =>
            match parseValue fuel rest3 with
            | none => none
            | some (v, rest4) =>
              match skipWs rest4 with
              | ',' :: rest5 =>
                match parseObjFields fuel rest5 with
                | some (fs, rest6) => some ((k, v) :: fs, rest6)
                | none => none
              | c2 :: rest5 =>
                if c2 = braceClose then some ([(k, v)], rest5) else none
              | [] => none
          | _ => none
      else none

end

/-- `json.loads`: parse one value and refuse trailing garbage. -/
def jsonLoads (s : String) : Option JValue :=
  match parseValue (s.data.length + 2) s.data with
  | some (v, rest) => if skipWs rest = [] then some v else none
  | none => none

/-- Drop the rest of a `//` comment, keeping the newline
(`re.sub(r"//[^\n]*", "")`). -/
def dropLineComment : List Char → List Char
  | [] => []
  | c :: cs => if c = '\n' then c :: cs else dropLineComment cs

def stripLineComments : ℕ → List Char → List Char
  | 0, cs => cs
  | _, [] => []
  | fuel + 1, c :: cs =>
    if c = '/' then
      match cs with
      | c2 :: cs2 =>
        if c2 = '/' then stripLineComments fuel (dropLineComment cs2)
        else c :: stripLineComments fuel cs
      | [] => [c]
    else c :: stripLineComments fuel cs

/-- After `/*`, drop up to and including the next `*/`; `none` when
unterminated (the regex then simply does not match). -/
def dropBlockComment : List Char → Option (List Char)
  | [] => none
  | [_] => none
  | c1 :: c2 :: rest =>
    if c1 = '*' ∧ c2 = '/' then some rest
    else dropBlockComment (c2 :: rest)

def stripBlockComments : ℕ → List Char → List Char
  | 0, cs => cs
  | _, [] => []
  | fuel + 1, c :: cs =>
    if c = '/' then
      match cs with
      | c2 :: cs2 =>
        if c2 = '*' then
          match dropBlockComment cs2 with
          | some rest => stripBlockComments fuel rest
          | none => c :: stripBlockComments fuel cs
        else c :: stripBlockComments fuel cs
      | [] => [c]
    else c :: stripBlockComments fuel cs

/-- The `strip_comments` helper of `_parse_ai_response` (lines 451-456):
line comments first, then `/* ... */` blocks, both applied blindly. -/
def stripComments (s : String) : String :=
  let cs1 := stripLineComments (s.data.length + 1) s.data
  ⟨stripBlockComments (cs1.length + 1) cs1⟩

/-- Python `str.strip()`: remove leading and trailing whitespace. -/
def isPySpace (c : Char) : Bool :=
  c = ' ' ∨ c = '\n' ∨ c = '\t' ∨ c = '\r' ∨ c = Char.ofNat 11 ∨ c = Char.ofNat 12

def pyStrip (s : String) : String :=
  ⟨((s.data.dropWhile isPySpace).reverse.dropWhile isPySpace).reverse⟩

/-- Split the input around the first occurrence of three backticks. -/
def splitOnTicks : List Char → Option (List Char × List Char)
  | [] => none
  | c :: cs =>
    match cs with
    | c2 :: c3 :: rest =>
      if c = backtick ∧ c2 = backtick ∧ c3 = backtick then some ([], rest)
      else
        match splitOnTicks cs with
        | some (pre, post) => some (c :: pre, post)
        | none => none
    | _ =>
      match splitOnTicks cs with
      | some (pre, post) => some (c :: pre, post)
      | none => none

/-- The fenced-block extraction regex of `_parse_ai_response` (line 470),
<three backticks>(?:json)?\s*([\s\S]*?)\s*<three backticks>: content of the
first fenced block, with an optional `json` language tag and surrounding
whitespace removed. -/
def fencedBlock (cs : List Char) : Option (List Char) :=
  match splitOnTicks cs with
  | none => none
  | some (_, afterOpen) =>
    let afterTag :=
      match afterOpen with
      | 'j' :: 's' :: 'o' :: 'n' :: rest => rest
      | _ => afterOpen
    let body := afterTag.dropWhile isPySpace
    match splitOnTicks body with
    | none => none
    | some (content, _) => some ((content.reverse.dropWhile isPySpace).reverse)

/-- Suffix of the input starting at the first occurrence of `target`
(`str.find`). -/
def suffixFrom (target : Char) : List Char → Option (List Char)
  | [] => none
  | c :: cs => if c = target then some (c :: cs) else suffixFrom target cs

/-- Walk a delimiter-balanced span, in the style of the brace/bracket
counting loops of `_parse_ai_response` (lines 479-528): `acc` holds the
consumed characters in reverse, `count` the current nesting depth. -/
def takeBalancedAux (openC closeC : Char) : List Char → ℕ → List Char → Option (List Char)
  | _, _, [] => none
  | acc, count, c :: cs =>
    if c = openC then takeBalancedAux openC closeC (c :: acc) (count + 1) cs
    else if c = closeC then
      if count = 1 then some (c :: acc).reverse
      else takeBalancedAux openC closeC (c :: acc) (count - 1) cs
    else takeBalancedAux openC closeC (c :: acc) count cs

/-- The brace-scan fallback (lines 478-500): only the first balanced
`braces` span is tried — plain, then with comments stripped — and failure
breaks out. -/
def braceScan (cs : List Char) : Option JValue :=
  match suffixFrom braceOpen cs with
  | none => none
  | some suffix =>
    match takeBalancedAux braceOpen braceClose [] 0 suffix with
    | none => none
    | some span =>
      match jsonLoads ⟨span⟩ with
      | some v => some v
      | none => jsonLoads (stripComments ⟨span⟩)

/-- The bracket-scan fallback (lines 502-526): the first balanced `[...]`
span, with the list post-processing — first element if it is a dict, the
implicit items-object wrap for other non-empty lists. -/
def bracketScan (cs : List Char) : Option JValue :=
  match suffixFrom '[' cs with
  | none => none
  | some suffix =>
    match takeBalancedAux '[' ']' [] 0 suffix with
    | none => none
    | some span =>
      match jsonLoads ⟨span⟩ with
      | some (JValue.jarr (x :: xs)) =>
        match x with
        | JValue.jobj fields => some (JValue.jobj fields)
        | _ => some (JValue.jobj [("items", JValue.jarr (x :: xs))])
      | some v => some v
      | none => none

/-- Embedding of `RecommendationService._parse_ai_response` (lines 450-528):
the full strategy cascade ending in the `ValueError`. -/
def parseAiResponse (content : String) : Except String JValue :=
  let stripped := pyStrip content
  match jsonLoads stripped with
  | some v => Except.ok v
  | none =>
    match jsonLoads (stripComments stripped) with
    | some v => Except.ok v
    | none =>
      let fenced : Option JValue :=
        match fencedBlock content.data with
        | some ex =>
          match jsonLoads ⟨ex⟩ with
          | some v => some v
          | none => jsonLoads (stripComments ⟨ex⟩)
        | none => none
      match fenced with
      | some v => Except.ok v
      | none =>
        match braceScan content.data with
        | some v => Except.ok v
        | none =>
          match bracketScan content.data with
          | some v => Except.ok v
          | none => Except.error "Could not parse AI response as JSON"

/-! ## Recommendation generation floor (`generate_recommendation`) -/

/-- Caller-visible errors of recommendation generation
(recommendation_service.py, `InsufficientWardrobeError` and
`AIRecommendationError`). -/
inductive RecError where
  | insufficientWardrobe
  | aiRecommendationError
deriving DecidableEq, Repr

/-- `outfit_data.get("items", [])` (line 676). -/
def jGetItems : JValue → List JValue
  | JValue.jobj fields =>
    match fields.lookup "items" with
    | some (JValue.jarr xs) => xs
    | _ => []
  | _ => []

/-- `int(num)` over the selected item entries (lines 679-687): numbers
convert, digit strings convert, anything else is skipped with a logged
warning. -/
def toIntOpt : JValue → Option ℤ
  | JValue.jnum n => some n
  | JValue.jstr s =>
    match s.data with
    | '-' :: ds =>
      if ds ≠ [] ∧ ds.all Char.isDigit then some (-(digitsToNat ds : ℤ)) else none
    | ds =>
      if ds ≠ [] ∧ ds.all Char.isDigit then some ((digitsToNat ds : ℤ)) else none
  | _ => none

/-- Embedding of `RecommendationService.generate_recommendation`
(lines 530-700) from candidate assembly to item-number validation: the
external model call is represented by its raw text response, and the result
by the validated selected item numbers (positions in the numbered candidate
list). -/
def generateRecommendationModel (userId : ℕ) (wardrobe : List ClothingItem)
    (prefs : Option UserPreference) (excludeItems includeItems recentlyWorn : List ℕ)
    (aiResponse : String) : Except RecError (List ℤ) :=
  let candidates :=
    assembleCandidates userId wardrobe prefs excludeItems includeItems recentlyWorn
  if candidates.length < 2 then Except.error RecError.insufficientWardrobe
  else
    match parseAiResponse aiResponse with
    | Except.error _ => Except.error RecError.aiRecommendationError
    | Except.ok v0 =>
      let v :=
        match v0 with
        | JValue.jarr (x :: _) => x
        | other => other
      match v with
      | JValue.jobj fields =>
        let nums := (jGetItems (JValue.jobj fields)).filterMap toIntOpt
        let validNums := nums.filter fun n => decide (1 ≤ n ∧ n ≤ (candidates.length : ℤ))
        if validNums = [] then Except.error RecError.aiRecommendationError
        else Except.ok validNums
      | _ => Except.error RecError.aiRecommendationError

/-! ## Theorems -/

theorem clamp_neg_one_le (x : ℚ) : -1 ≤ pyMax (-1) (pyMin 1 x) := by
  rw [pyMax_eq_max]
  exact le_max_left _ _

theorem clamp_le_one (x : ℚ) : pyMax (-1) (pyMin 1 x) ≤ 1 := by
  rw [pyMax_eq_max, pyMin_eq_min]
  exact max_le (by norm_num) (min_le_left _ _)

set_option maxHeartbeats 1600000 in
theorem getOutfitSignal_eq_clamped_sum (status : OutfitStatus) (fb : Option UserFeedback) :
    getOutfitSignal status fb = pyMax (-1) (pyMin 1 (outfitSignalTerms status fb)) := by
  have key : ∀ s2 t : ℚ, s2 = t → pyMax (-1) (pyMin 1 s2) = pyMax (-1) (pyMin 1 t) := by
    intro s2 t h
    rw [h]
  unfold getOutfitSignal outfitSignalTerms
  apply key
  rcases fb with _ | ⟨ac, r, cr, sr, w, m, aw, wi⟩
  · cases status <;> norm_num
  · cases status <;> rcases r with _ | r <;> rcases w with _ | w <;> cases m <;>
      rcases aw with _ | b <;> (try cases b) <;> rcases wi with _ | ⟨x, xs⟩ <;>
      (try norm_num [List.cons_ne_nil]) <;> (try ring_nf)

set_option maxHeartbeats 800000 in
/-- C1: the outfit signal equals the clamped-to-[-1,1] sum of the per-field
contribution terms (+0.3 accepted, -0.5 rejected, (rating-3)/2*0.4, +0.3 worn
with -0.1 for modifications, -0.4 for actually_worn = false with a further
-0.2 for non-empty wore_instead_items), and always lies in [-1, 1].  Purity
is inherent: `getOutfitSignal` is a function of exactly these inputs. -/
theorem outfit_signal_is_clamped_term_sum (status : OutfitStatus) (fb : Option UserFeedback) :
    getOutfitSignal status fb = pyMax (-1) (pyMin 1 (outfitSignalTerms status fb)) ∧
      -1 ≤ getOutfitSignal status fb ∧ getOutfitSignal status fb ≤ 1 := by
  have h := getOutfitSignal_eq_clamped_sum status fb
  rw [h]
  exact ⟨rfl, clamp_neg_one_le _, clamp_le_one _⟩

/-- C9 counterexample: for status accepted, rating 5, worn, actually_worn
explicitly false, and non-empty wore_instead_items, the signal is not -1.0
(the claim says it clamps to exactly -1.0). -/
def feedbackC9 : UserFeedback :=
  { accepted := some true
    rating := some 5
    comfort_rating := none
    style_rating := none
    worn_at := some 0
    worn_with_modifications := false
    actually_worn := some false
    wore_instead_items := [7] }

theorem signal_feedbackC9_eval :
    getOutfitSignal OutfitStatus.accepted (some feedbackC9) = 2/5 := by
  unfold feedbackC9
  unfold getOutfitSignal
  dsimp only
  norm_num [pyMax, pyMin]

/-- C9 counterexample: the signal at the claimed input is 0.4, not -1.0. -/
theorem signal_accepted_rated_unworn_cex :
    getOutfitSignal OutfitStatus.accepted (some feedbackC9) ≠ -1 := by
  rw [signal_feedbackC9_eval]
  norm_num

/-- C9 (amended): for accepted + rating 5 + worn + actually_worn = false with
substitutes, the signal is exactly 0.4 = 0.3 + 0.4 + 0.3 - 0.4 - 0.2, and in
particular stays within [-1, 1] (no overflow below -1). -/
theorem signal_accepted_rated_unworn_value :
    getOutfitSignal OutfitStatus.accepted (some feedbackC9) = 2/5 ∧
      -1 ≤ getOutfitSignal OutfitStatus.accepted (some feedbackC9) ∧
      getOutfitSignal OutfitStatus.accepted (some feedbackC9) ≤ 1 := by
  rw [signal_feedbackC9_eval]
  norm_num

/-- C2 counterexample input: 7 co-occurrences, 1 acceptance, 6 rejections, no
ratings.  The exact formula gives -3/7, but the code stores the value rounded
to 4 decimal places, -0.4286. -/
def pairC2 : ItemPairScore :=
  { item1_id := 1
    item2_id := 2
    compatibility_score := 0
    times_paired := 7
    times_accepted := 1
    times_rejected := 6
    total_rating_sum := 0
    rating_count := 0
    occasion_performance := []
    weather_performance := [] }

/-- C2 counterexample: for a pair with times_paired >= 2 the stored score can
differ from the exact formula value, because the code rounds to 4 decimal
places before storing. -/
theorem pair_compat_exact_formula_cex :
    2 ≤ pairC2.times_paired ∧
      computePairCompatibility pairC2 ≠ pairCompatibilityFormula pairC2 := by
  constructor
  · norm_num [pairC2]
  · have h1 : computePairCompatibility pairC2 = -2143/5000 := by
      norm_num [computePairCompatibility, pairC2, MIN_PAIRS_FOR_SCORING, pyRound,
        roundHalfEven]
    have h2 : pairCompatibilityFormula pairC2 = -3/7 := by
      norm_num [pairCompatibilityFormula, pairC2]
    rw [h1, h2]
    norm_num

/-- C2 (amended): the recomputed compatibility score equals the spec formula
rounded to 4 decimal places (Python `round`) when times_paired >= 2, and is
exactly 0.0 whenever times_paired < 2, regardless of accumulated counters. -/
theorem pair_compat_is_rounded_formula (pair : ItemPairScore) :
    computePairCompatibility pair =
      if pair.times_paired < MIN_PAIRS_FOR_SCORING then 0
      else pyRound (pairCompatibilityFormula pair) 4 := by
  unfold computePairCompatibility pairCompatibilityFormula
  split
  · rfl
  · dsimp only
    congr 1
    split_ifs <;> first
      | omega
      | (push_cast ; ring)

/-! ### C3 and C10: profile recomputation -/

theorem foldl_profileStep_color : ∀ (l : List Outfit) (a : ProfileAccum),
    (l.foldl profileStep a).color_scores
      = l.foldl (fun d o => colorStepOutfit (outfitSignal o) o.items d) a.color_scores
  | [], _ => rfl
  | o :: l, a => by
    rw [List.foldl_cons, List.foldl_cons, foldl_profileStep_color l _]
    rfl

theorem foldl_profileStep_style : ∀ (l : List Outfit) (a : ProfileAccum),
    (l.foldl profileStep a).style_scores
      = l.foldl (fun d o => styleStepOutfit (outfitSignal o) o.items d) a.style_scores
  | [], _ => rfl
  | o :: l, a => by
    rw [List.foldl_cons, List.foldl_cons, foldl_profileStep_style l _]
    rfl

theorem foldl_profileStep_occasion : ∀ (l : List Outfit) (a : ProfileAccum),
    (l.foldl profileStep a).occasion_patterns
      = l.foldl (fun d o => occasionStepOutfit (outfitSignal o) o.occasion o.items d)
          a.occasion_patterns
  | [], _ => rfl
  | o :: l, a => by
    rw [List.foldl_cons, List.foldl_cons, foldl_profileStep_occasion l _]
    rfl

theorem foldl_profileStep_weather : ∀ (l : List Outfit) (a : ProfileAccum),
    (l.foldl profileStep a).weather_prefs
      = l.foldl
          (fun d o => weatherStepOutfit (outfitSignal o) o.weather_temperature o.items.length d)
          a.weather_prefs
  | [], _ => rfl
  | o :: l, a => by
    rw [List.foldl_cons, List.foldl_cons, foldl_profileStep_weather l _]
    rfl

theorem recompute_branch_color (profile : UserLearningProfile) (allOutfits : List Outfit)
    (hne : respondedOutfits allOutfits ≠ []) :
    (recomputeLearningProfile profile allOutfits).learned_color_scores
      = colorScoresOf (respondedOutfits allOutfits) := by
  have hlen : ¬ (respondedOutfits allOutfits).length < MIN_FEEDBACK_FOR_LEARNING := by
    have := List.length_pos.mpr hne
    unfold MIN_FEEDBACK_FOR_LEARNING
    omega
  unfold recomputeLearningProfile
  rw [if_neg hlen]
  dsimp only
  rw [foldl_profileStep_color]
  rfl

theorem recompute_branch_style (profile : UserLearningProfile) (allOutfits : List Outfit)
    (hne : respondedOutfits allOutfits ≠ []) :
    (recomputeLearningProfile profile allOutfits).learned_style_scores
      = styleScoresOf (respondedOutfits allOutfits) := by
  have hlen : ¬ (respondedOutfits allOutfits).length < MIN_FEEDBACK_FOR_LEARNING := by
    have := List.length_pos.mpr hne
    unfold MIN_FEEDBACK_FOR_LEARNING
    omega
  unfold recomputeLearningProfile
  rw [if_neg hlen]
  dsimp only
  rw [foldl_profileStep_style]
  rfl

theorem recompute_branch_occasion (profile : UserLearningProfile) (allOutfits : List Outfit)
    (hne : respondedOutfits allOutfits ≠ []) :
    (recomputeLearningProfile profile allOutfits).learned_occasion_patterns
      = occasionPatternsOf (respondedOutfits allOutfits) := by
  have hlen : ¬ (respondedOutfits allOutfits).length < MIN_FEEDBACK_FOR_LEARNING := by
    have := List.length_pos.mpr hne
    unfold MIN_FEEDBACK_FOR_LEARNING
    omega
  unfold recomputeLearningProfile
  rw [if_neg hlen]
  dsimp only
  rw [foldl_profileStep_occasion]
  rfl

theorem recompute_branch_weather (profile : UserLearningProfile) (allOutfits : List Outfit)
    (hne : respondedOutfits allOutfits ≠ []) :
    (recomputeLearningProfile profile allOutfits).learned_weather_preferences
      = weatherPrefsOf (respondedOutfits allOutfits) := by
  have hlen : ¬ (respondedOutfits allOutfits).length < MIN_FEEDBACK_FOR_LEARNING := by
    have := List.length_pos.mpr hne
    unfold MIN_FEEDBACK_FOR_LEARNING
    omega
  unfold recomputeLearningProfile
  rw [if_neg hlen]
  dsimp only
  rw [foldl_profileStep_weather]
  rfl

theorem mem_keys_updateAList {α : Type} (key : String)
    (dflt : α) (f : α → α) :
    ∀ (d : List (String × α)) (c : String),
      c ∈ (updateAList d key dflt f).map Prod.fst →
      c ∈ d.map Prod.fst ∨ c = key
  | [], c, hc => by
    unfold updateAList at hc
    simp at hc
    exact Or.inr hc
  | (k, v) :: rest, c, hc => by
    unfold updateAList at hc
    by_cases hk : k = key
    · rw [if_pos hk] at hc
      simp only [List.map_cons, List.mem_cons] at hc
      rcases hc with h | h
      · exact Or.inl (List.mem_cons.mpr (Or.inl h))
      · exact Or.inl (List.mem_cons.mpr (Or.inr h))
    · rw [if_neg hk] at hc
      simp only [List.map_cons, List.mem_cons] at hc
      rcases hc with h | h
      · exact Or.inl (List.mem_cons.mpr (Or.inl h))
      · rcases mem_keys_updateAList key dflt f rest c h with h2 | h2
        · exact Or.inl (List.mem_cons.mpr (Or.inr h2))
        · exact Or.inr h2

theorem colorStepItem_none (signal : ℚ) (acc : List (String × List ℚ))
    (it : ClothingItem) (hm : it.primary_color = none) :
    colorStepItem signal acc it = acc := by
  unfold colorStepItem
  rw [hm]

theorem colorStepItem_some (signal : ℚ) (acc : List (String × List ℚ))
    (it : ClothingItem) (col : String) (hm : it.primary_color = some col) :
    colorStepItem signal acc it
      = if col = "" then acc else appendSignal acc col signal := by
  unfold colorStepItem
  rw [hm]

theorem mem_keys_colorStepOutfit (signal : ℚ) :
    ∀ (items : List ClothingItem) (d : List (String × List ℚ)) (c : String),
      c ∈ (colorStepOutfit signal items d).map Prod.fst →
      c ∈ d.map Prod.fst ∨ ∃ it ∈ items, it.primary_color = some c
  | [], _, c, hc => Or.inl hc
  | it :: items, d, c, hc => by
    unfold colorStepOutfit at hc
    rw [List.foldl_cons] at hc
    rcases mem_keys_colorStepOutfit signal items _ c hc with hd | ⟨it2, hit2, hc2⟩
    · rcases hmatch : it.primary_color with _ | col
      · rw [colorStepItem_none signal d it hmatch] at hd
        exact Or.inl hd
      · rw [colorStepItem_some signal d it col hmatch] at hd
        by_cases hemp : col = ""
        · rw [if_pos hemp] at hd
          exact Or.inl hd
        · rw [if_neg hemp] at hd
          unfold appendSignal at hd
          rcases mem_keys_updateAList _ _ _ _ _ hd with h | h
          · exact Or.inl h
          · subst h
            exact Or.inr ⟨it, List.mem_cons_self _ _, hmatch⟩
    · exact Or.inr ⟨it2, List.mem_cons_of_mem _ hit2, hc2⟩

theorem mem_keys_finalizeScores (d : List (String × List ℚ)) (c : String)
    (hc : c ∈ (finalizeScores d).map Prod.fst) : c ∈ d.map Prod.fst := by
  unfold finalizeScores at hc
  simp only [List.map_map, List.mem_map, Function.comp] at hc
  obtain ⟨kv, hkv, hfst⟩ := hc
  exact List.mem_map.mpr ⟨kv, (List.mem_filter.mp hkv).1, hfst⟩

theorem color_keys_from_outfits : ∀ (outfits : List Outfit)
    (d : List (String × List ℚ)) (c : String),
    c ∈ ((outfits.foldl (fun d o => colorStepOutfit (outfitSignal o) o.items d) d).map
      Prod.fst) →
    c ∈ d.map Prod.fst ∨ ∃ o ∈ outfits, ∃ it ∈ o.items, it.primary_color = some c
  | [], _, _, hc => Or.inl hc
  | o :: outfits, d, c, hc => by
    rw [List.foldl_cons] at hc
    rcases color_keys_from_outfits outfits _ c hc with hd | ⟨o2, ho2, hres⟩
    · rcases mem_keys_colorStepOutfit _ _ _ _ hd with h | ⟨it, hit, hcol⟩
      · exact Or.inl h
      · exact Or.inr ⟨o, List.mem_cons_self _ _, it, hit, hcol⟩
    · exact Or.inr ⟨o2, List.mem_cons_of_mem _ ho2, hres⟩

theorem weather_fold_of_no_temp : ∀ (outfits : List Outfit)
    (d : List (String × WeatherAcc)),
    (∀ o ∈ outfits, o.weather_temperature = none) →
    outfits.foldl
      (fun d o => weatherStepOutfit (outfitSignal o) o.weather_temperature o.items.length d) d
      = d
  | [], _, _ => rfl
  | o :: outfits, d, h => by
    rw [List.foldl_cons]
    have hstep : weatherStepOutfit (outfitSignal o) o.weather_temperature o.items.length d
        = d := by
      rw [h o (List.mem_cons_self _ _)]
      rfl
    rw [hstep]
    exact weather_fold_of_no_temp outfits d fun o2 ho2 => h o2 (List.mem_cons_of_mem _ ho2)

/-- C3: recomputation has full-replace semantics.  With at least one responded
outfit, each learned map equals an aggregate computed from the responded
history alone (the right-hand sides never mention the prior profile), every
color key of the new profile is backed by some item of some responded outfit
(so stale keys cannot survive), and with no weather data at all the weather
map is empty. -/
theorem recompute_full_replace (profile : UserLearningProfile) (allOutfits : List Outfit)
    (hne : respondedOutfits allOutfits ≠ []) :
    (recomputeLearningProfile profile allOutfits).learned_color_scores
        = colorScoresOf (respondedOutfits allOutfits) ∧
      (recomputeLearningProfile profile allOutfits).learned_style_scores
        = styleScoresOf (respondedOutfits allOutfits) ∧
      (recomputeLearningProfile profile allOutfits).learned_occasion_patterns
        = occasionPatternsOf (respondedOutfits allOutfits) ∧
      (recomputeLearningProfile profile allOutfits).learned_weather_preferences
        = weatherPrefsOf (respondedOutfits allOutfits) ∧
      (∀ c, c ∈ (recomputeLearningProfile profile allOutfits).learned_color_scores.map
          Prod.fst →
        ∃ o ∈ respondedOutfits allOutfits, ∃ it ∈ o.items, it.primary_color = some c) ∧
      ((∀ o ∈ respondedOutfits allOutfits, o.weather_temperature = none) →
        (recomputeLearningProfile profile allOutfits).learned_weather_preferences = []) := by
  refine ⟨recompute_branch_color profile allOutfits hne,
    recompute_branch_style profile allOutfits hne,
    recompute_branch_occasion profile allOutfits hne,
    recompute_branch_weather profile allOutfits hne, ?_, ?_⟩
  · intro c hc
    rw [recompute_branch_color profile allOutfits hne] at hc
    unfold colorScoresOf at hc
    have h2 := mem_keys_finalizeScores _ _ hc
    rcases color_keys_from_outfits _ _ _ h2 with h | h
    · simp at h
    · exact h
  · intro hnotemp
    rw [recompute_branch_weather profile allOutfits hne]
    unfold weatherPrefsOf
    rw [weather_fold_of_no_temp _ _ hnotemp]
    rfl

/-- Profile with a stale color entry, for the C3 witness. -/
def staleProfile : UserLearningProfile :=
  { learned_color_scores := [("red", 4/5)]
    learned_style_scores := []
    learned_occasion_patterns := []
    learned_weather_preferences := []
    overall_acceptance_rate := none
    average_overall_rating := none
    average_comfort_rating := none
    average_style_rating := none
    feedback_count := 3
    outfits_rated := 1 }

/-- Accepted outfit with one blue item, for the C3 witness. -/
def outfitC3 : Outfit :=
  { user_id := 1
    status := OutfitStatus.accepted
    occasion := "casual"
    weather_temperature := none
    items := [{ id := 1
                user_id := 1
                status := ItemStatus.ready
                is_archived := false
                needs_wash := false
                primary_color := some "blue"
                style := [] }]
    feedback := none }

/-- Witness for C3 at a stale profile and a single responded outfit. -/
theorem recompute_full_replace_witness :
    (recomputeLearningProfile staleProfile [outfitC3]).learned_color_scores
        = colorScoresOf (respondedOutfits [outfitC3]) ∧
      (recomputeLearningProfile staleProfile [outfitC3]).learned_style_scores
        = styleScoresOf (respondedOutfits [outfitC3]) ∧
      (recomputeLearningProfile staleProfile [outfitC3]).learned_occasion_patterns
        = occasionPatternsOf (respondedOutfits [outfitC3]) ∧
      (recomputeLearningProfile staleProfile [outfitC3]).learned_weather_preferences
        = weatherPrefsOf (respondedOutfits [outfitC3]) ∧
      (∀ c, c ∈ (recomputeLearningProfile staleProfile [outfitC3]).learned_color_scores.map
          Prod.fst →
        ∃ o ∈ respondedOutfits [outfitC3], ∃ it ∈ o.items, it.primary_color = some c) ∧
      ((∀ o ∈ respondedOutfits [outfitC3], o.weather_temperature = none) →
        (recomputeLearningProfile staleProfile [outfitC3]).learned_weather_preferences
          = []) :=
  recompute_full_replace staleProfile [outfitC3] (by decide)

theorem foldl_profileStep_no_accepted : ∀ (l : List Outfit) (a : ProfileAccum),
    (∀ o ∈ l, ¬ o.status = OutfitStatus.accepted) →
    (l.foldl profileStep a).total_accepted = a.total_accepted
  | [], _, _ => rfl
  | o :: l, a, h => by
    rw [List.foldl_cons,
      foldl_profileStep_no_accepted l _ fun o2 ho2 => h o2 (List.mem_cons_of_mem _ ho2)]
    unfold profileStep
    dsimp only
    rw [if_neg (h o (List.mem_cons_self _ _))]

theorem foldl_profileStep_responded : ∀ (l : List Outfit) (a : ProfileAccum),
    (l.foldl profileStep a).total_accepted + (l.foldl profileStep a).total_rejected
      = a.total_accepted + a.total_rejected + l.length
  | [], _ => by simp
  | o :: l, a => by
    rw [List.foldl_cons, foldl_profileStep_responded l _]
    unfold profileStep
    dsimp only
    split <;> simp <;> omega

/-- C10: when every responded outfit is rejected, the stored
overall_acceptance_rate is None, not 0.0 — the `if acceptance_rate:`
truthiness guard treats a zero rate like the no-responses case, whose
early-return leaves the profile (and hence a fresh profile's None) unchanged. -/
theorem all_rejected_acceptance_rate_none (profile : UserLearningProfile)
    (allOutfits : List Outfit)
    (hne : respondedOutfits allOutfits ≠ [])
    (hrej : ∀ o ∈ respondedOutfits allOutfits, o.status = OutfitStatus.rejected) :
    (recomputeLearningProfile profile allOutfits).overall_acceptance_rate = none ∧
      (∀ allOutfits2 : List Outfit, respondedOutfits allOutfits2 = [] →
        (recomputeLearningProfile profile allOutfits2).overall_acceptance_rate
          = profile.overall_acceptance_rate) := by
  constructor
  · have hlen : ¬ (respondedOutfits allOutfits).length < MIN_FEEDBACK_FOR_LEARNING := by
      have := List.length_pos.mpr hne
      unfold MIN_FEEDBACK_FOR_LEARNING
      omega
    have hta : ((respondedOutfits allOutfits).foldl profileStep
        initProfileAccum).total_accepted = 0 := by
      rw [foldl_profileStep_no_accepted _ _ fun o ho => by
        rw [hrej o ho]
        intro h
        exact absurd h (by decide)]
      rfl
    have htr : 0 < ((respondedOutfits allOutfits).foldl profileStep
          initProfileAccum).total_accepted
        + ((respondedOutfits allOutfits).foldl profileStep
          initProfileAccum).total_rejected := by
      rw [foldl_profileStep_responded]
      have := List.length_pos.mpr hne
      unfold initProfileAccum
      dsimp only
      omega
    unfold recomputeLearningProfile
    rw [if_neg hlen]
    dsimp only
    rw [if_pos htr, hta]
    simp
  · intro allOutfits2 hresp
    unfold recomputeLearningProfile
    rw [hresp]
    rfl

/-- All-rejected outfit for the C10 witness. -/
def outfitC10 : Outfit :=
  { user_id := 1
    status := OutfitStatus.rejected
    occasion := "casual"
    weather_temperature := none
    items := []
    feedback := none }

/-- Witness for C10 at a single rejected outfit. -/
theorem all_rejected_acceptance_rate_none_witness :
    (recomputeLearningProfile staleProfile [outfitC10]).overall_acceptance_rate = none ∧
      (∀ allOutfits2 : List Outfit, respondedOutfits allOutfits2 = [] →
        (recomputeLearningProfile staleProfile allOutfits2).overall_acceptance_rate
          = staleProfile.overall_acceptance_rate) :=
  all_rejected_acceptance_rate_none staleProfile [outfitC10] (by decide) (by decide)

/-! ### C5: model-response parsing -/

/-- The structured selection the five shapes are expected to produce. -/
def itemsObjC5 : JValue :=
  JValue.jobj [("items", JValue.jarr [JValue.jnum 1, JValue.jnum 2, JValue.jnum 3])]

/-- What the parser actually returns for a bare array. -/
def bareArrC5 : JValue := JValue.jarr [JValue.jnum 1, JValue.jnum 2, JValue.jnum 3]

/-- C5 counterexample: a bare JSON array of numbers is NOT treated as an
implicit items object — the direct-parse strategy succeeds first and the
plain list is returned as is (the wrapping only happens in the bracket-scan
fallback). -/
theorem parse_bare_array_not_wrapped_cex :
    parseAiResponse "[1, 2, 3]" = Except.ok bareArrC5 ∧
      parseAiResponse "[1, 2, 3]" ≠ Except.ok itemsObjC5 := by
  constructor
  · rfl
  · intro h
    rw [show parseAiResponse "[1, 2, 3]" = Except.ok bareArrC5 from rfl] at h
    exact JValue.noConfusion (Except.ok.inj h)

/-- C5 (amended): the parser succeeds on (a) clean JSON, (b) a fenced code
block, (c) JSON with `//` comments, (c') JSON with block comments, (d) JSON
preceded by prose with a balanced braces span, all yielding the same items
object; a bare array of numbers (e) parses successfully but is returned as
the plain list, while the implicit items-object wrap applies only when the
array is reached through the bracket-scan fallback (e.g. behind prose); and
pure prose with no JSON-like span yields the clear "no valid JSON" error. -/
theorem parse_ai_response_shapes :
    parseAiResponse "\x7b\"items\": [1, 2, 3]\x7d" = Except.ok itemsObjC5 ∧
      parseAiResponse "```json\n\x7b\"items\": [1, 2, 3]\x7d\n```" = Except.ok itemsObjC5 ∧
      parseAiResponse "\x7b\"items\": [1, 2, 3] // great\n\x7d" = Except.ok itemsObjC5 ∧
      parseAiResponse "\x7b\"items\": [1, 2, 3] /* nice */\x7d" = Except.ok itemsObjC5 ∧
      parseAiResponse "Here is my pick: \x7b\"items\": [1, 2, 3]\x7d  Enjoy!"
        = Except.ok itemsObjC5 ∧
      parseAiResponse "[1, 2, 3]" = Except.ok bareArrC5 ∧
      parseAiResponse "I would wear items: [1, 2, 3] today." = Except.ok itemsObjC5 ∧
      parseAiResponse "I cannot find a good combination today."
        = Except.error "Could not parse AI response as JSON" :=
  ⟨rfl, rfl, rfl, rfl, rfl, rfl, rfl, rfl⟩

/-! ### C6: the two-candidate floor -/

/-- C6: with fewer than 2 assembled candidates, generation fails with
InsufficientWardrobeError no matter what the model would answer (the model
is never consulted: the result is independent of the response); with exactly
2 candidates that error is never raised. -/
theorem candidate_floor (userId : ℕ) (wardrobe : List ClothingItem)
    (prefs : Option UserPreference) (excl incl recent : List ℕ) :
    ((assembleCandidates userId wardrobe prefs excl incl recent).length < 2 →
      ∀ resp, generateRecommendationModel userId wardrobe prefs excl incl recent resp
        = Except.error RecError.insufficientWardrobe) ∧
      ((assembleCandidates userId wardrobe prefs excl incl recent).length = 2 →
        ∀ resp, generateRecommendationModel userId wardrobe prefs excl incl recent resp
          ≠ Except.error RecError.insufficientWardrobe) := by
  constructor
  · intro h resp
    unfold generateRecommendationModel
    rw [if_pos h]
  · intro h resp
    unfold generateRecommendationModel
    rw [if_neg (by omega)]
    cases hp : parseAiResponse resp with
    | error e => simp [hp]
    | ok v0 =>
      cases v0 with
      | jnull => simp [hp]
      | jbool b => simp [hp]
      | jnum n => simp [hp]
      | jstr s => simp [hp]
      | jobj fs =>
        simp only [hp]
        split <;> simp
      | jarr xs =>
        cases xs with
        | nil => simp [hp]
        | cons x xs2 =>
          cases x <;> simp only [hp] <;> (try split) <;> simp

/-- Ready wardrobe items for the C6 witness. -/
def itemC6a : ClothingItem :=
  { id := 11
    user_id := 7
    status := ItemStatus.ready
    is_archived := false
    needs_wash := false
    primary_color := none
    style := [] }

def itemC6b : ClothingItem :=
  { id := 12
    user_id := 7
    status := ItemStatus.ready
    is_archived := false
    needs_wash := false
    primary_color := none
    style := [] }

/-- Witness for C6: a one-item wardrobe raises the floor error regardless of
the response; a two-item wardrobe does not. -/
theorem candidate_floor_witness :
    generateRecommendationModel 7 [itemC6a] none [] [] [] "no json here"
        = Except.error RecError.insufficientWardrobe ∧
      generateRecommendationModel 7 [itemC6a, itemC6b] none [] [] [] "no json here"
        ≠ Except.error RecError.insufficientWardrobe :=
  ⟨(candidate_floor 7 [itemC6a] none [] [] []).1 (by decide) _,
   (candidate_floor 7 [itemC6a, itemC6b] none [] [] []).2 (by decide) _⟩

/-! ### C8: force-include bypass -/

theorem getCandidateItems_subset (userId : ℕ) (wardrobe : List ClothingItem)
    (prefs : Option UserPreference) (excludeItems recentlyWorn : List ℕ)
    (x : ClothingItem)
    (hx : x ∈ getCandidateItems userId wardrobe prefs excludeItems recentlyWorn) :
    x ∈ wardrobe := by
  rcases prefs with _ | p <;>
    (unfold getCandidateItems at hx
     dsimp only at hx
     split_ifs at hx <;> simp at hx <;> tauto)

/-- C8 counterexample: an archived item owned by the requesting user and
named in include_items is not fetched by the force-include query (which
requires ready, non-archived status), so it is absent from the final
candidate list. -/
def itemArchivedC8 : ClothingItem :=
  { id := 1
    user_id := 7
    status := ItemStatus.ready
    is_archived := true
    needs_wash := false
    primary_color := none
    style := [] }

def itemPlainC8a : ClothingItem :=
  { id := 2
    user_id := 7
    status := ItemStatus.ready
    is_archived := false
    needs_wash := false
    primary_color := none
    style := [] }

def itemPlainC8b : ClothingItem :=
  { id := 3
    user_id := 7
    status := ItemStatus.ready
    is_archived := false
    needs_wash := false
    primary_color := none
    style := [] }

/-- C8 counterexample: the owned, force-included item 1 is archived and ends
up absent from the assembled candidates. -/
theorem force_include_archived_cex :
    itemArchivedC8.user_id = 7 ∧ itemArchivedC8.id ∈ [1] ∧
      itemArchivedC8 ∉
        assembleCandidates 7 [itemArchivedC8, itemPlainC8a, itemPlainC8b]
          none [] [1] [] := by decide

/-- C8 (amended): every item named in include_items that is owned by the
requesting user, in ready status and not archived ends up in the final
candidate list, bypassing the request-level exclusion list, the
preference-level exclusion list, the needs-wash filter and the
recently-worn window. -/
theorem force_included_in_candidates (userId : ℕ) (wardrobe : List ClothingItem)
    (prefs : Option UserPreference) (excl incl recent : List ℕ)
    (hnd : (wardrobe.map fun i => i.id).Nodup)
    (it : ClothingItem) (hmem : it ∈ wardrobe) (hincl : it.id ∈ incl)
    (howner : it.user_id = userId) (hready : it.status = ItemStatus.ready)
    (harch : it.is_archived = false) :
    it ∈ assembleCandidates userId wardrobe prefs excl incl recent := by
  unfold assembleCandidates forceIncludeItems
  rw [if_pos (List.ne_nil_of_mem hincl)]
  dsimp only
  by_cases hc : it ∈ getCandidateItems userId wardrobe prefs excl recent
  · split
    · exact List.mem_append_left _ hc
    · exact hc
  · have hidnot : it.id ∉ (getCandidateItems userId wardrobe prefs excl recent).map
        fun i => i.id := by
      intro hid
      obtain ⟨c, hcmem, hcid⟩ := List.mem_map.mp hid
      have hceq : c = it :=
        List.inj_on_of_nodup_map hnd
          (getCandidateItems_subset userId wardrobe prefs excl recent c hcmem) hmem hcid
      exact hc (hceq ▸ hcmem)
    have hmiss : it.id ∈ incl.filter fun i =>
        decide (i ∉ (getCandidateItems userId wardrobe prefs excl recent).map
          fun i => i.id) :=
      List.mem_filter.mpr ⟨hincl, by simpa using hidnot⟩
    rw [if_pos (List.ne_nil_of_mem hmiss)]
    apply List.mem_append_right
    refine List.mem_filter.mpr ⟨hmem, ?_⟩
    simp only [decide_eq_true_eq]
    exact ⟨hmiss, howner, hready, harch⟩

/-- Owned, ready, needs-wash item for the C8 witness. -/
def itemWashC8 : ClothingItem :=
  { id := 4
    user_id := 7
    status := ItemStatus.ready
    is_archived := false
    needs_wash := true
    primary_color := none
    style := [] }

/-- Witness for C8 (amended): a needs-wash item, normally filtered out, is
present once force-included. -/
theorem force_included_in_candidates_witness :
    itemWashC8 ∈
      assembleCandidates 7 [itemPlainC8a, itemPlainC8b, itemWashC8] none [] [4] [] :=
  force_included_in_candidates 7 [itemPlainC8a, itemPlainC8b, itemWashC8] none [] [4] []
    (by decide) itemWashC8 (by decide) (by decide) (by decide) (by decide) (by decide)

/-! ### C4: performance counters versus the section-4.1 signal -/

theorem perfGet_bumpPerf (perf : List (String × ℕ × ℕ)) (key : String) (isPos : Bool) :
    perfGet (bumpPerf perf key isPos) key
      = ((perfGet perf key).1 + 1,
         (perfGet perf key).2 + if isPos then 1 else 0) := by
  induction perf with
  | nil => cases isPos <;> simp [bumpPerf, perfGet, List.lookup]
  | cons hd tl ih =>
    obtain ⟨k, c, p⟩ := hd
    by_cases hk : k = key
    · subst hk
      cases isPos <;> simp [bumpPerf, perfGet, List.lookup]
    · have hbeq : (key == k) = false := by
        simp [beq_iff_eq]
        exact fun h => hk h.symm
      simp [bumpPerf, perfGet, List.lookup, hk, hbeq] at ih ⊢
      exact ih

/-- Feedback used in the C4 counterexample: rejected with a 1-star rating but
marked as worn. -/
def feedbackC4 : UserFeedback :=
  { accepted := some false
    rating := some 1
    comfort_rating := none
    style_rating := none
    worn_at := some 0
    worn_with_modifications := false
    actually_worn := none
    wore_instead_items := [] }

theorem signal_feedbackC4_eval :
    getOutfitSignal OutfitStatus.rejected (some feedbackC4) = -(3/5) := by
  unfold feedbackC4
  unfold getOutfitSignal
  dsimp only
  norm_num [pyMax, pyMin]

/-- C4 counterexample: for a rejected outfit with rating 1 that was worn, the
code increments the "positive" counter (worn_at forces the local is_positive
flag to true), while the section-4.1 combined signal is -0.6, not > 0.  So
"positive incremented iff the section-4.1 signal > 0" is false. -/
theorem pair_positive_counter_vs_signal_cex :
    (perfGet (updatePairCounters feedbackC4 "casual" none
        (defaultPairScore 1 2)).occasion_performance "casual").2
        = (perfGet (defaultPairScore 1 2).occasion_performance "casual").2 + 1 ∧
      ¬ 0 < getOutfitSignal OutfitStatus.rejected (some feedbackC4) := by
  constructor
  · rfl
  · rw [signal_feedbackC4_eval]
    norm_num

/-- C4 (amended): in the pair-score update for an outfit's feedback, the
"count" counter of the occasion entry (and of the weather entry, when a
temperature is present) is incremented unconditionally, and the "positive"
counter is incremented if and only if the locally computed `is_positive` flag
of `_update_item_pair_scores` is true — a flag based on acceptance, a
0.3-weighted rating term, and worn_at (which forces it true), not on the
section-4.1 signal. -/
theorem pair_perf_counters_update (fb : UserFeedback) (occ : String)
    (wtemp : Option ℚ) (ps : ItemPairScore) :
    perfGet (updatePairCounters fb occ wtemp ps).occasion_performance occ
        = ((perfGet ps.occasion_performance occ).1 + 1,
           (perfGet ps.occasion_performance occ).2
             + if pairIsPositive fb then 1 else 0) ∧
      (∀ t : ℚ, wtemp = some t →
        perfGet (updatePairCounters fb occ wtemp ps).weather_performance (getTempBucket t)
          = ((perfGet ps.weather_performance (getTempBucket t)).1 + 1,
             (perfGet ps.weather_performance (getTempBucket t)).2
               + if pairIsPositive fb then 1 else 0)) := by
  obtain ⟨ac, r, cr, sr, w, m, aw, wi⟩ := fb
  constructor
  · rcases ac with _ | b <;> (try cases b) <;> rcases r with _ | r <;>
      rcases wtemp with _ | t <;>
      simp [updatePairCounters, perfGet_bumpPerf]
  · intro t ht
    subst ht
    rcases ac with _ | b <;> (try cases b) <;> rcases r with _ | r <;>
      simp [updatePairCounters, perfGet_bumpPerf]

/-- Feedback used in the C4 witness: a straightforward acceptance. -/
def feedbackC4w : UserFeedback :=
  { accepted := some true
    rating := none
    comfort_rating := none
    style_rating := none
    worn_at := none
    worn_with_modifications := false
    actually_worn := none
    wore_instead_items := [] }

/-- Witness for C4 (amended) at a concrete accepted feedback, occasion "work"
and temperature 20. -/
theorem pair_perf_counters_update_witness :
    perfGet (updatePairCounters feedbackC4w "work" (some 20)
        (defaultPairScore 1 2)).occasion_performance "work"
        = ((perfGet (defaultPairScore 1 2).occasion_performance "work").1 + 1,
           (perfGet (defaultPairScore 1 2).occasion_performance "work").2
             + if pairIsPositive feedbackC4w then 1 else 0) ∧
      perfGet (updatePairCounters feedbackC4w "work" (some 20)
        (defaultPairScore 1 2)).weather_performance (getTempBucket 20)
        = ((perfGet (defaultPairScore 1 2).weather_performance (getTempBucket 20)).1 + 1,
           (perfGet (defaultPairScore 1 2).weather_performance (getTempBucket 20)).2
             + if pairIsPositive feedbackC4w then 1 else 0) := by
  have h := pair_perf_counters_update feedbackC4w "work" (some 20) (defaultPairScore 1 2)
  exact ⟨h.1, h.2 20 rfl⟩

/-! ### C7: wore-instead pair updates -/

theorem pairKey_comm (a b : ℕ) : pairKey a b = pairKey b a := by
  unfold pairKey
  split_ifs <;> first | rfl | (simp [Prod.ext_iff] ; omega)

theorem pairKey_eq_cases (u v a b : ℕ) (h : pairKey u v = pairKey a b) :
    (u = a ∧ v = b) ∨ (u = b ∧ v = a) := by
  unfold pairKey at h
  split_ifs at h <;> simp [Prod.ext_iff] at h <;> omega

theorem mem_pairsOf (l : List ℕ) (p : ℕ × ℕ) (hp : p ∈ pairsOf l) :
    p.1 ∈ l ∧ p.2 ∈ l := by
  induction l with
  | nil => simp [pairsOf] at hp
  | cons x xs ih =>
    simp only [pairsOf, List.mem_append, List.mem_map] at hp
    rcases hp with ⟨y, hy, hyp⟩ | hp
    · subst hyp
      exact ⟨List.mem_cons_self _ _, List.mem_cons_of_mem _ hy⟩
    · obtain ⟨h1, h2⟩ := ih hp
      exact ⟨List.mem_cons_of_mem _ h1, List.mem_cons_of_mem _ h2⟩

theorem foldl_update_untouched (f : ItemPairScore → ItemPairScore)
    (ps : List (ℕ × ℕ)) (m : PairStore) (k : ℕ × ℕ)
    (h : ∀ p ∈ ps, pairKey p.1 p.2 ≠ k) :
    ps.foldl (fun acc p => updateStore acc (pairKey p.1 p.2) f) m k = m k := by
  induction ps generalizing m with
  | nil => rfl
  | cons q qs ih =>
    simp only [List.foldl_cons]
    rw [ih _ fun p hp => h p (List.mem_cons_of_mem _ hp)]
    unfold updateStore
    rw [if_neg]
    intro hk
    exact h q (List.mem_cons_self _ _) (by rw [hk])

theorem foldl_update_first_component (f : ItemPairScore → ItemPairScore)
    (x b : ℕ) (xs : List ℕ) (m : PairStore)
    (hx : x ∉ xs) (hnd : xs.Nodup) (hb : b ∈ xs) :
    (xs.map fun y => (x, y)).foldl
        (fun acc p => updateStore acc (pairKey p.1 p.2) f) m (pairKey x b)
      = f (m (pairKey x b)) := by
  induction xs generalizing m with
  | nil => simp at hb
  | cons y ys ih =>
    have hxy : x ≠ y := fun h => hx (h ▸ List.mem_cons_self _ _)
    have hxys : x ∉ ys := fun h => hx (List.mem_cons_of_mem _ h)
    simp only [List.map_cons, List.foldl_cons]
    rcases List.mem_cons.mp hb with hby | hbys
    · have hbys : b ∉ ys := hby ▸ (List.nodup_cons.mp hnd).1
      rw [foldl_update_untouched]
      · unfold updateStore
        rw [if_pos (by rw [hby])]
        rw [hby]
      · intro p hp hkey
        obtain ⟨z, hz, hzp⟩ := List.mem_map.mp hp
        subst hzp
        rcases pairKey_eq_cases _ _ _ _ hkey with ⟨_, h2⟩ | ⟨h1, _⟩
        · exact hbys (h2 ▸ hz)
        · exact hxy (by omega)
    · have hyb : y ≠ b := fun h => (List.nodup_cons.mp hnd).1 (h ▸ hbys)
      rw [ih _ hxys (List.nodup_cons.mp hnd).2 hbys]
      unfold updateStore
      rw [if_neg]
      intro hk
      rcases pairKey_eq_cases _ _ _ _ hk with ⟨_, h2⟩ | ⟨h1, _⟩
      · exact hyb h2.symm
      · exact hxy h1

theorem foldl_pairsOf_update (f : ItemPairScore → ItemPairScore) :
    ∀ (l : List ℕ) (m : PairStore) (a b : ℕ),
      l.Nodup → a ∈ l → b ∈ l → a ≠ b →
      (pairsOf l).foldl (fun acc p => updateStore acc (pairKey p.1 p.2) f) m (pairKey a b)
        = f (m (pairKey a b))
  | [], _, a, _, _, ha, _, _ => by simp at ha
  | x :: xs, m, a, b, hnd, ha, hb, hab => by
    obtain ⟨hx, hndxs⟩ := List.nodup_cons.mp hnd
    simp only [pairsOf, List.foldl_append]
    rcases List.mem_cons.mp ha with hax | haxs
    · subst hax
      have hbxs : b ∈ xs := by
        rcases List.mem_cons.mp hb with h | h
        · exact absurd h.symm hab
        · exact h
      rw [foldl_update_untouched]
      · exact foldl_update_first_component _ _ _ _ _ hx hndxs hbxs
      · intro p hp hkey
        obtain ⟨h1, h2⟩ := mem_pairsOf _ _ hp
        rcases pairKey_eq_cases _ _ _ _ hkey with ⟨hu, _⟩ | ⟨_, hv⟩
        · exact hx (hu ▸ h1)
        · exact hx (hv ▸ h2)
    · rcases List.mem_cons.mp hb with hbx | hbxs
      · subst hbx
        rw [pairKey_comm]
        rw [foldl_update_untouched]
        · exact foldl_update_first_component _ _ _ _ _ hx hndxs haxs
        · intro p hp hkey
          obtain ⟨h1, h2⟩ := mem_pairsOf _ _ hp
          rcases pairKey_eq_cases _ _ _ _ hkey with ⟨hu, _⟩ | ⟨_, hv⟩
          · exact hx (hu ▸ h1)
          · exact hx (hv ▸ h2)
      · rw [foldl_pairsOf_update f xs _ a b hndxs haxs hbxs hab]
        congr 1
        apply foldl_update_untouched
        intro p hp hkey
        obtain ⟨z, hz, hzp⟩ := List.mem_map.mp hp
        subst hzp
        rcases pairKey_eq_cases _ _ _ _ hkey with ⟨hu, _⟩ | ⟨hu, _⟩
        · have hu2 : x = a := hu
          exact hx (hu2.symm ▸ haxs)
        · have hu2 : x = b := hu
          exact hx (hu2.symm ▸ hbxs)

/-- C7: when the wore-instead list resolves to at least 2 (distinct) items,
every unordered pair of those items gets times_paired + 1,
times_accepted + 1, total_rating_sum + 5, rating_count + 1 and a recomputed
compatibility score; with fewer than 2 items the pair-score table is
untouched. -/
theorem wore_instead_pair_updates (ids : List ℕ) (m : PairStore) (hnd : ids.Nodup) :
    (2 ≤ ids.length → ∀ a ∈ ids, ∀ b ∈ ids, a ≠ b →
      processWoreInstead ids m (pairKey a b)
        = (let p := m (pairKey a b)
           let p4 : ItemPairScore :=
             { p with
               times_paired := p.times_paired + 1
               times_accepted := p.times_accepted + 1
               total_rating_sum := p.total_rating_sum + 5
               rating_count := p.rating_count + 1 }
           { p4 with compatibility_score := computePairCompatibility p4 })) ∧
      (ids.length < 2 → processWoreInstead ids m = m) := by
  constructor
  · intro hlen a ha b hb hab
    have h : processWoreInstead ids m (pairKey a b)
        = woreInsteadBump (m (pairKey a b)) := by
      unfold processWoreInstead
      rw [if_neg (by omega)]
      exact foldl_pairsOf_update _ ids m a b hnd ha hb hab
    rw [h]
    rfl
  · intro hlen
    unfold processWoreInstead
    rw [if_pos hlen]

/-- Witness for C7 at the concrete id list [1, 2, 3] and the fresh table. -/
theorem wore_instead_pair_updates_witness :
    processWoreInstead [1, 2, 3] (fun _ => defaultPairScore 1 2) (pairKey 1 2)
      = (let p := defaultPairScore 1 2
         let p4 : ItemPairScore :=
           { p with
             times_paired := p.times_paired + 1
             times_accepted := p.times_accepted + 1
             total_rating_sum := p.total_rating_sum + 5
             rating_count := p.rating_count + 1 }
         { p4 with compatibility_score := computePairCompatibility p4 }) :=
  (wore_instead_pair_updates [1, 2, 3] (fun _ => defaultPairScore 1 2)
    (by decide)).1 (by decide) 1 (by decide) 2 (by decide) (by decide)

end Wardrowbe
